import Mathlib

/-!
Shallow embedding of the color conversion library
`src/utils/colorConversions.ts` of the chromaticity color picker.

Numbers are modelled exactly: the matrix, chromaticity, gamut, CSS and
temperature functions (which only use field operations on decimal
constants) are embedded over `ℚ`, so they are executable; the gamma,
LAB and OKLCH functions (which use `Math.pow` with fractional
exponents, `Math.sqrt` and `Math.atan2`) are embedded over `ℝ` with
`Real.rpow`, `Real.sqrt` and a total `atan2` matching the mathematical
semantics of `Math.atan2` (no signed zeros in the model). Division by
zero is total and yields 0 in both `ℚ` and `ℝ`, which only matters at
inputs the guards of the source already intercept or that the theorems
exclude by hypothesis.
-/

/-- `XYZColor {x,y,z}` record of `colorConversions.ts` (CIE tristimulus). -/
structure XYZColor where
  x : ℚ
  y : ℚ
  z : ℚ
deriving DecidableEq

/-- `xyColor {x,y,Y}` record: chromaticity x,y plus luminance Y. -/
structure xyColor where
  x : ℚ
  y : ℚ
  Y : ℚ
deriving DecidableEq

/-- `RGBColor {r,g,b}` record. -/
structure RGBColor where
  r : ℚ
  g : ℚ
  b : ℚ
deriving DecidableEq

/-- `LABColor {l,a,b}` record (real-valued: produced by `XYZToLAB`,
which needs cube roots). -/
structure LABColor where
  l : ℝ
  a : ℝ
  b : ℝ

/-- `OKLCHColor {l,c,h}` record (real-valued: produced by `LABToOKLCH`,
which needs `sqrt`/`atan2`). -/
structure OKLCHColor where
  l : ℝ
  c : ℝ
  h : ℝ

/-- The `ColorSpace` union type of `colorConversions.ts`. -/
inductive ColorSpace where
  | sRGB
  | P3
  | Rec2020
  | XYZ
  | LAB
  | OKLCH
deriving DecidableEq

/-- A 3×3 matrix of rationals, row major, mirroring the
`number[][]` matrices of the source. -/
structure Mat3 where
  m00 : ℚ
  m01 : ℚ
  m02 : ℚ
  m10 : ℚ
  m11 : ℚ
  m12 : ℚ
  m20 : ℚ
  m21 : ℚ
  m22 : ℚ

/-- `sRGB_MATRIX` constant (XYZ→RGB working-space matrix). -/
def sRGB_MATRIX : Mat3 :=
  ⟨3.2406, -1.5372, -0.4986,
   -0.9689, 1.8758, 0.0415,
   0.0557, -0.2040, 1.0570⟩

/-- `P3_MATRIX` constant (XYZ→RGB working-space matrix). -/
def P3_MATRIX : Mat3 :=
  ⟨2.4934, -0.9313, -0.4027,
   -0.8295, 1.7627, 0.0236,
   0.0358, -0.0761, 0.9569⟩

/-- `REC2020_MATRIX` constant (XYZ→RGB working-space matrix). -/
def REC2020_MATRIX : Mat3 :=
  ⟨1.7167, -0.3557, -0.2534,
   -0.6667, 1.6165, 0.0158,
   0.0176, -0.0428, 0.9421⟩

/-- `XYZToxyY(xyz)`: chromaticity coordinates; returns the zero record
when the tristimulus sum is zero. -/
def XYZToxyY (xyz : XYZColor) : xyColor :=
  if xyz.x + xyz.y + xyz.z = 0 then ⟨0, 0, 0⟩
  else ⟨xyz.x / (xyz.x + xyz.y + xyz.z), xyz.y / (xyz.x + xyz.y + xyz.z), xyz.y⟩

/-- `xyYToXYZ(xyY)`: inverse chromaticity transform; returns the zero
vector when the chromaticity `y` is zero. -/
def xyYToXYZ (xyY : xyColor) : XYZColor :=
  if xyY.y = 0 then ⟨0, 0, 0⟩
  else ⟨xyY.x * xyY.Y / xyY.y, xyY.Y, (1 - xyY.x - xyY.y) * xyY.Y / xyY.y⟩

/-- `XYZToRGB(xyz, colorSpace)`: 3×3 matrix multiply; the `switch`
falls back to the sRGB matrix for every tag other than P3/Rec2020. -/
def XYZToRGB (xyz : XYZColor) (colorSpace : ColorSpace) : RGBColor :=
  let matrix : Mat3 :=
    match colorSpace with
    | ColorSpace.P3 => P3_MATRIX
    | ColorSpace.Rec2020 => REC2020_MATRIX
    | _ => sRGB_MATRIX
  ⟨matrix.m00 * xyz.x + matrix.m01 * xyz.y + matrix.m02 * xyz.z,
   matrix.m10 * xyz.x + matrix.m11 * xyz.y + matrix.m12 * xyz.z,
   matrix.m20 * xyz.x + matrix.m21 * xyz.y + matrix.m22 * xyz.z⟩

/-- `RGBToXYZ(rgb, colorSpace)`: 3×3 matrix multiply with the forward
matrices inlined in the `switch`, as in the source. -/
def RGBToXYZ (rgb : RGBColor) (colorSpace : ColorSpace) : XYZColor :=
  let matrix : Mat3 :=
    match colorSpace with
    | ColorSpace.P3 =>
        ⟨0.4865, 0.2657, 0.1982,
         0.2290, 0.6917, 0.0793,
         0.0000, 0.0451, 1.0439⟩
    | ColorSpace.Rec2020 =>
        ⟨0.6370, 0.1446, 0.1689,
         0.2627, 0.6780, 0.0593,
         0.0000, 0.0281, 1.0609⟩
    | _ =>
        ⟨0.4124, 0.3576, 0.1805,
         0.2126, 0.7152, 0.0722,
         0.0193, 0.1192, 0.9505⟩
  ⟨matrix.m00 * rgb.r + matrix.m01 * rgb.g + matrix.m02 * rgb.b,
   matrix.m10 * rgb.r + matrix.m11 * rgb.g + matrix.m12 * rgb.b,
   matrix.m20 * rgb.r + matrix.m21 * rgb.g + matrix.m22 * rgb.b⟩

/-- `gammaCorrect(value)`: piecewise sRGB transfer function,
`Math.pow(value, 1/2.4)` modelled with `Real.rpow`. -/
noncomputable def gammaCorrect (value : ℝ) : ℝ :=
  if value ≤ 0.0031308 then 12.92 * value
  else 1.055 * value ^ ((1 : ℝ) / 2.4) - 0.055

/-- `gammaUncorrect(value)`: inverse transfer function, threshold 0.04045. -/
noncomputable def gammaUncorrect (value : ℝ) : ℝ :=
  if value ≤ 0.04045 then value / 12.92
  else ((value + 0.055) / 1.055) ^ (2.4 : ℝ)

/-- `labF(t)` helper of `XYZToLAB`: cube root above the CIE threshold,
linear segment below. -/
noncomputable def labF (t : ℝ) : ℝ :=
  if t > 0.008856 then t ^ ((1 : ℝ) / 3) else 7.787 * t + 16 / 116

/-- `XYZToLAB(xyz)`: CIE 1976 L*a*b* against the D65 reference white
(Xn=0.95047, Yn=1.0, Zn=1.08883). -/
noncomputable def XYZToLAB (xyz : XYZColor) : LABColor :=
  let fx := labF ((xyz.x : ℝ) / 0.95047)
  let fy := labF ((xyz.y : ℝ) / 1.00000)
  let fz := labF ((xyz.z : ℝ) / 1.08883)
  ⟨116 * fy - 16, 500 * (fx - fy), 200 * (fy - fz)⟩

/-- Mathematical semantics of JavaScript `Math.atan2(y, x)` (the model
has no signed zeros, so the range is (−π, π]). -/
noncomputable def atan2 (y x : ℝ) : ℝ :=
  if 0 < x then Real.arctan (y / x)
  else if x < 0 then
    (if 0 ≤ y then Real.arctan (y / x) + Real.pi
     else Real.arctan (y / x) - Real.pi)
  else if 0 < y then Real.pi / 2
  else if y < 0 then -(Real.pi / 2)
  else 0

/-- `LABToOKLCH(lab)`: polar LCh transform over the LAB fields, hue
normalized from (−180, 180] to [0, 360). -/
noncomputable def LABToOKLCH (lab : LABColor) : OKLCHColor :=
  let l := lab.l / 100
  let c := Real.sqrt (lab.a * lab.a + lab.b * lab.b) / 100
  let h := atan2 lab.b lab.a * 180 / Real.pi
  ⟨l, c, if h < 0 then h + 360 else h⟩

/-- JavaScript `Math.round`: round half toward +∞ (all uses in the
source are on clamped non-negative values). -/
def jsRound (q : ℚ) : ℤ := ⌊q + 1 / 2⌋

/-- The clamp `Math.max(0, Math.min(255, v))` used by `generateCSSColor`. -/
def clamp255 (q : ℚ) : ℚ := max 0 (min 255 q)

/-- Left-pad the fractional digits of `toFixed(4)` to width 4. -/
def pad4 (n : ℕ) : String :=
  if n < 10 then "000" ++ toString n
  else if n < 100 then "00" ++ toString n
  else if n < 1000 then "0" ++ toString n
  else toString n

/-- JavaScript `(q).toFixed(4)` for non-negative `q`: nearest multiple
of 1e-4, ties rounded up. The only arguments the source passes are
`r/255` with `r` an integer in [0,255]; for those the exact rational
value and the IEEE double round to the same 4-decimal string (no value
lies within double rounding error of a tie). -/
def toFixed4 (q : ℚ) : String :=
  let m := (⌊q * 10000 + 1 / 2⌋).toNat
  toString (m / 10000) ++ "." ++ pad4 (m % 10000)

/-- `generateCSSColor(rgb, colorSpace)`: clamp and round each channel,
then format per color space. -/
def generateCSSColor (rgb : RGBColor) (colorSpace : ColorSpace) : String :=
  let r := jsRound (clamp255 rgb.r)
  let g := jsRound (clamp255 rgb.g)
  let b := jsRound (clamp255 rgb.b)
  match colorSpace with
  | ColorSpace.P3 =>
      "color(display-p3 " ++ toFixed4 ((r : ℚ) / 255) ++ " " ++
        toFixed4 ((g : ℚ) / 255) ++ " " ++ toFixed4 ((b : ℚ) / 255) ++ ")"
  | ColorSpace.Rec2020 =>
      "color(rec2020 " ++ toFixed4 ((r : ℚ) / 255) ++ " " ++
        toFixed4 ((g : ℚ) / 255) ++ " " ++ toFixed4 ((b : ℚ) / 255) ++ ")"
  | _ => "rgb(" ++ toString r ++ ", " ++ toString g ++ ", " ++ toString b ++ ")"

/-- `isInGamut(rgb)`: pure range check on the three channels. -/
def isInGamut (rgb : RGBColor) : Bool :=
  decide (rgb.r ≥ 0) && decide (rgb.r ≤ 255) &&
  decide (rgb.g ≥ 0) && decide (rgb.g ≤ 255) &&
  decide (rgb.b ≥ 0) && decide (rgb.b ≤ 255)

/-- `getColorTemperature(x, y)`: McCamy's cubic CCT approximation,
with no guard at the `0.1858 - y = 0` singularity. -/
def getColorTemperature (x y : ℚ) : ℚ :=
  let n := (x - 0.3320) / (0.1858 - y)
  449 * n ^ 3 + 3525 * n ^ 2 + 6823.3 * n + 5520.33

/-! ### Helper lemmas (shared) -/

/-- Raising `a ^ 2.4` to the 5th power gives `a ^ 12` (since 2.4·5 = 12). -/
theorem rpow_five_of_rpow_24 {a : ℝ} (ha : 0 ≤ a) :
    (a ^ (2.4 : ℝ)) ^ (5 : ℕ) = a ^ (12 : ℕ) := by
  rw [← Real.rpow_natCast (a ^ (2.4 : ℝ)) 5, ← Real.rpow_mul ha]
  rw [show (2.4 : ℝ) * (5 : ℕ) = ((12 : ℕ) : ℝ) by norm_num]
  rw [Real.rpow_natCast]

/-- Comparison with a 2.4 power reduces to a rational 12th/5th power comparison. -/
theorem rpow_24_le_iff {a b : ℝ} (ha : 0 ≤ a) (hb : 0 ≤ b) :
    a ^ (2.4 : ℝ) ≤ b ↔ a ^ (12 : ℕ) ≤ b ^ (5 : ℕ) := by
  constructor
  · intro h
    rw [← rpow_five_of_rpow_24 ha]
    exact pow_le_pow_left₀ (Real.rpow_nonneg ha _) h 5
  · intro h
    by_contra hlt
    push_neg at hlt
    have h5 : b ^ (5 : ℕ) < (a ^ (2.4 : ℝ)) ^ (5 : ℕ) :=
      pow_lt_pow_left₀ hlt hb (by norm_num)
    rw [rpow_five_of_rpow_24 ha] at h5
    linarith

/-- Mirror image of `rpow_24_le_iff`. -/
theorem le_rpow_24_iff {a b : ℝ} (ha : 0 ≤ a) (hb : 0 ≤ b) :
    b ≤ a ^ (2.4 : ℝ) ↔ b ^ (5 : ℕ) ≤ a ^ (12 : ℕ) := by
  constructor
  · intro h
    rw [← rpow_five_of_rpow_24 ha]
    exact pow_le_pow_left₀ hb h 5
  · intro h
    by_contra hlt
    push_neg at hlt
    have h5 : (a ^ (2.4 : ℝ)) ^ (5 : ℕ) < b ^ (5 : ℕ) :=
      pow_lt_pow_left₀ hlt (Real.rpow_nonneg ha _) (by norm_num)
    rw [rpow_five_of_rpow_24 ha] at h5
    linarith

/-- Decoding exponent 2.4 after encoding exponent 1/2.4 is the identity on `[0, ∞)`. -/
theorem rpow_roundtrip {v : ℝ} (hv : 0 ≤ v) : (v ^ ((1 : ℝ) / 2.4)) ^ (2.4 : ℝ) = v := by
  rw [← Real.rpow_mul hv]
  norm_num

/-- Encoding exponent 1/2.4 after decoding exponent 2.4 is the identity on `[0, ∞)`. -/
theorem rpow_roundtrip2 {c : ℝ} (hc : 0 ≤ c) : (c ^ (2.4 : ℝ)) ^ ((1 : ℝ) / 2.4) = c := by
  rw [← Real.rpow_mul hc]
  norm_num

/-- The modelled `Math.atan2` always lands in (−π, π]. -/
theorem atan2_range (y x : ℝ) : -Real.pi < atan2 y x ∧ atan2 y x ≤ Real.pi := by
  have hpi : 0 < Real.pi := Real.pi_pos
  have hup : ∀ t : ℝ, Real.arctan t < Real.pi / 2 := Real.arctan_lt_pi_div_two
  have hlo : ∀ t : ℝ, -(Real.pi / 2) < Real.arctan t := Real.neg_pi_div_two_lt_arctan
  unfold atan2
  by_cases hx : 0 < x
  · rw [if_pos hx]
    constructor
    · linarith [hlo (y / x)]
    · linarith [hup (y / x)]
  · rw [if_neg hx]
    by_cases hx2 : x < 0
    · rw [if_pos hx2]
      by_cases hy : 0 ≤ y
      · rw [if_pos hy]
        have hdiv : y / x ≤ 0 := div_nonpos_iff.mpr (Or.inl ⟨hy, hx2.le⟩)
        have h1 : Real.arctan (y / x) ≤ 0 := by
          calc Real.arctan (y / x) ≤ Real.arctan 0 := Real.arctan_strictMono.monotone hdiv
            _ = 0 := Real.arctan_zero
        constructor
        · linarith [hlo (y / x)]
        · linarith
      · rw [if_neg hy]
        push_neg at hy
        have hdiv : 0 < y / x := div_pos_of_neg_of_neg hy hx2
        have h1 : 0 < Real.arctan (y / x) := by
          calc (0 : ℝ) = Real.arctan 0 := Real.arctan_zero.symm
            _ < Real.arctan (y / x) := Real.arctan_strictMono hdiv
        constructor
        · linarith
        · linarith [hup (y / x)]
    · rw [if_neg hx2]
      by_cases hy : 0 < y
      · rw [if_pos hy]
        constructor <;> linarith
      · rw [if_neg hy]
        by_cases hy2 : y < 0
        · rw [if_pos hy2]
          constructor <;> linarith
        · rw [if_neg hy2]
          constructor <;> linarith

/-! ### Claim C1 -/

/-- Claim C1 counterexample: the stated ±0.01 tolerance fails. For the
sRGB matrices and input (255,255,0) the green channel of the round trip
RGB→XYZ→RGB differs from 255 by exactly 0.01580745 > 0.01. -/
theorem C1_roundtrip_not_within_001 :
    ¬ |(XYZToRGB (RGBToXYZ ⟨255, 255, 0⟩ ColorSpace.sRGB) ColorSpace.sRGB).g - 255| ≤
      (0.01 : ℚ) := by
  unfold XYZToRGB RGBToXYZ sRGB_MATRIX
  norm_num [abs_le]

/-- Claim C1 (amended): for every RGB color with all channels in [0,255]
and a fixed color space among sRGB, P3 and Rec2020, the round trip
RGBToXYZ then XYZToRGB (same space) reproduces every channel within
±0.07 absolute (the exact worst case, attained in P3, is ≈0.0682). -/
theorem C1_roundtrip_within_007 (rgb : RGBColor) (sp : ColorSpace)
    (hr0 : 0 ≤ rgb.r) (hr1 : rgb.r ≤ 255) (hg0 : 0 ≤ rgb.g) (hg1 : rgb.g ≤ 255)
    (hb0 : 0 ≤ rgb.b) (hb1 : rgb.b ≤ 255)
    (hsp : sp = ColorSpace.sRGB ∨ sp = ColorSpace.P3 ∨ sp = ColorSpace.Rec2020) :
    |(XYZToRGB (RGBToXYZ rgb sp) sp).r - rgb.r| ≤ 0.07 ∧
    |(XYZToRGB (RGBToXYZ rgb sp) sp).g - rgb.g| ≤ 0.07 ∧
    |(XYZToRGB (RGBToXYZ rgb sp) sp).b - rgb.b| ≤ 0.07 := by
  obtain ⟨r, g, b⟩ := rgb
  simp only at hr0 hr1 hg0 hg1 hb0 hb1
  rcases hsp with h | h | h
  · subst h
    unfold XYZToRGB RGBToXYZ sRGB_MATRIX
    refine ⟨?_, ?_, ?_⟩ <;> (rw [abs_le]; constructor <;> (ring_nf; linarith))
  · subst h
    unfold XYZToRGB RGBToXYZ P3_MATRIX
    refine ⟨?_, ?_, ?_⟩ <;> (rw [abs_le]; constructor <;> (ring_nf; linarith))
  · subst h
    unfold XYZToRGB RGBToXYZ REC2020_MATRIX
    refine ⟨?_, ?_, ?_⟩ <;> (rw [abs_le]; constructor <;> (ring_nf; linarith))

/-- Claim C1 witness: the amended bound instantiated at (100,200,50), sRGB. -/
theorem C1_roundtrip_within_007_witness :
    |(XYZToRGB (RGBToXYZ ⟨100, 200, 50⟩ ColorSpace.sRGB) ColorSpace.sRGB).r - 100| ≤ 0.07 ∧
    |(XYZToRGB (RGBToXYZ ⟨100, 200, 50⟩ ColorSpace.sRGB) ColorSpace.sRGB).g - 200| ≤ 0.07 ∧
    |(XYZToRGB (RGBToXYZ ⟨100, 200, 50⟩ ColorSpace.sRGB) ColorSpace.sRGB).b - 50| ≤ 0.07 :=
  C1_roundtrip_within_007 ⟨100, 200, 50⟩ ColorSpace.sRGB (by norm_num) (by norm_num)
    (by norm_num) (by norm_num) (by norm_num) (by norm_num) (Or.inl rfl)

/-! ### Claim C2 -/

/-- Claim C2 counterexample: the XYZ color (1,0,0) has positive sum, yet
the chromaticity round trip collapses it to the zero vector (the
intermediate chromaticity has y = 0, so `xyYToXYZ` takes its guard), an
error of 1 in the x component, far above 1e-6. -/
theorem C2_counterexample :
    (1 : ℚ) + 0 + 0 > 0 ∧
    ¬ (|(xyYToXYZ (XYZToxyY ⟨1, 0, 0⟩)).x - 1| ≤ 1e-6 ∧
       |(xyYToXYZ (XYZToxyY ⟨1, 0, 0⟩)).y - 0| ≤ 1e-6 ∧
       |(xyYToXYZ (XYZToxyY ⟨1, 0, 0⟩)).z - 0| ≤ 1e-6) := by
  constructor
  · norm_num
  · unfold XYZToxyY xyYToXYZ
    norm_num [abs_le]

/-- Claim C2 (amended): for every XYZ color with X+Y+Z > 0 and Y ≠ 0,
applying XYZToxyY and then xyYToXYZ reproduces every component within
±1e-6 (in exact arithmetic the round trip is the identity there). -/
theorem C2_roundtrip_exact_when_Y_ne_zero (xyz : XYZColor)
    (hs : 0 < xyz.x + xyz.y + xyz.z) (hy : xyz.y ≠ 0) :
    |(xyYToXYZ (XYZToxyY xyz)).x - xyz.x| ≤ 1e-6 ∧
    |(xyYToXYZ (XYZToxyY xyz)).y - xyz.y| ≤ 1e-6 ∧
    |(xyYToXYZ (XYZToxyY xyz)).z - xyz.z| ≤ 1e-6 := by
  obtain ⟨x, y, z⟩ := xyz
  simp only at hs hy
  have hsne : x + y + z ≠ 0 := ne_of_gt hs
  unfold XYZToxyY
  rw [if_neg hsne]
  unfold xyYToXYZ
  simp only
  rw [if_neg (div_ne_zero hy hsne)]
  refine ⟨?_, ?_, ?_⟩
  · have h1 : x / (x + y + z) * y / (y / (x + y + z)) = x := by
      field_simp
    rw [h1]
    norm_num
  · norm_num
  · have h1 : (1 - x / (x + y + z) - y / (x + y + z)) * y / (y / (x + y + z)) = z := by
      field_simp
      ring
    rw [h1]
    norm_num

/-- Claim C2 witness: the amended round trip instantiated at (1,2,3). -/
theorem C2_roundtrip_exact_when_Y_ne_zero_witness :
    |(xyYToXYZ (XYZToxyY ⟨1, 2, 3⟩)).x - 1| ≤ 1e-6 ∧
    |(xyYToXYZ (XYZToxyY ⟨1, 2, 3⟩)).y - 2| ≤ 1e-6 ∧
    |(xyYToXYZ (XYZToxyY ⟨1, 2, 3⟩)).z - 3| ≤ 1e-6 :=
  C2_roundtrip_exact_when_Y_ne_zero ⟨1, 2, 3⟩ (by norm_num) (by norm_num)

/-! ### Claim C3 -/

/-- Claim C3: XYZToxyY maps the zero vector to the zero record, and
xyYToXYZ maps any input with chromaticity y = 0 to the zero vector;
both are total functions returning these sentinels (no exception). -/
theorem C3_degenerate_inputs :
    XYZToxyY ⟨0, 0, 0⟩ = ⟨0, 0, 0⟩ ∧
    ∀ (x Y : ℚ), xyYToXYZ ⟨x, 0, Y⟩ = ⟨0, 0, 0⟩ := by
  constructor
  · unfold XYZToxyY
    norm_num
  · intro x Y
    unfold xyYToXYZ
    simp

/-! ### Claim C4 -/

/-- Claim C4 counterexample: the stated ±1e-9 tolerance fails. The
encode threshold 0.0031308 and decode threshold 0.04045 are not exact
inverses: (0.09545/1.055)^2.4 ≈ 0.00313080728 exceeds 0.0031308, so for
v = 0.003130806 the encoder takes the power branch but the decoder takes
the linear branch, leaving an error of about −2.2e-9. -/
theorem C4_counterexample :
    (0 : ℝ) ≤ 0.003130806 ∧ (0.003130806 : ℝ) ≤ 1 ∧
    ¬ |gammaUncorrect (gammaCorrect 0.003130806) - 0.003130806| ≤ 1e-9 := by
  refine ⟨by norm_num, by norm_num, ?_⟩
  have henc : gammaCorrect 0.003130806 = 1.055 * (0.003130806 : ℝ) ^ ((1 : ℝ) / 2.4) - 0.055 := by
    unfold gammaCorrect
    rw [if_neg (by norm_num)]
  have hvc : (0.003130806 : ℝ) ≤ ((0.09545 : ℝ) / 1.055) ^ (2.4 : ℝ) :=
    (le_rpow_24_iff (by norm_num) (by norm_num)).mpr (by norm_num)
  have huc : (0.003130806 : ℝ) ^ ((1 : ℝ) / 2.4) ≤ 0.09545 / 1.055 := by
    calc (0.003130806 : ℝ) ^ ((1 : ℝ) / 2.4)
        ≤ (((0.09545 : ℝ) / 1.055) ^ (2.4 : ℝ)) ^ ((1 : ℝ) / 2.4) :=
          Real.rpow_le_rpow (by norm_num) hvc (by norm_num)
      _ = (0.09545 : ℝ) / 1.055 := rpow_roundtrip2 (by norm_num)
  have hvq2 : (0.003130806 : ℝ) ≤ (0.09047392 : ℝ) ^ (2.4 : ℝ) :=
    (le_rpow_24_iff (by norm_num) (by norm_num)).mpr (by norm_num)
  have huq2 : (0.003130806 : ℝ) ^ ((1 : ℝ) / 2.4) ≤ 0.09047392 := by
    calc (0.003130806 : ℝ) ^ ((1 : ℝ) / 2.4)
        ≤ ((0.09047392 : ℝ) ^ (2.4 : ℝ)) ^ ((1 : ℝ) / 2.4) :=
          Real.rpow_le_rpow (by norm_num) hvq2 (by norm_num)
      _ = (0.09047392 : ℝ) := rpow_roundtrip2 (by norm_num)
  have hdec : gammaUncorrect (1.055 * (0.003130806 : ℝ) ^ ((1 : ℝ) / 2.4) - 0.055) =
      (1.055 * (0.003130806 : ℝ) ^ ((1 : ℝ) / 2.4) - 0.055) / 12.92 := by
    unfold gammaUncorrect
    rw [if_pos (by rw [le_div_iff₀ (by norm_num : (0 : ℝ) < 1.055)] at huc; linarith)]
  rw [henc, hdec]
  intro hcontra
  rw [abs_le] at hcontra
  have hlow := hcontra.1
  rw [show (1.055 * (0.003130806 : ℝ) ^ ((1 : ℝ) / 2.4) - 0.055) / 12.92 - 0.003130806 =
    (1.055 * (0.003130806 : ℝ) ^ ((1 : ℝ) / 2.4) - 0.055 - 12.92 * 0.003130806) / 12.92
    by ring] at hlow
  rw [le_div_iff₀ (by norm_num : (0 : ℝ) < 12.92)] at hlow
  linarith

/-- Claim C4 (amended): for every v in [0,1],
gammaUncorrect (gammaCorrect v) differs from v by at most 1e-8. Outside
the threshold-mismatch window (0.0031308, (0.09545/1.055)^2.4] the round
trip is exact; inside it the error stays below 1e-8 in magnitude. -/
theorem C4_gamma_roundtrip_within_1e8 (v : ℝ) (h0 : 0 ≤ v) (h1 : v ≤ 1) :
    |gammaUncorrect (gammaCorrect v) - v| ≤ 1e-8 := by
  unfold gammaCorrect
  by_cases hv : v ≤ 0.0031308
  · rw [if_pos hv]
    unfold gammaUncorrect
    rw [if_pos (show (12.92 : ℝ) * v ≤ 0.04045 by linarith)]
    rw [show (12.92 : ℝ) * v / 12.92 - v = 0 by ring]
    norm_num
  · rw [if_neg hv]
    push_neg at hv
    have hu0 : (0 : ℝ) ≤ v ^ ((1 : ℝ) / 2.4) := Real.rpow_nonneg h0 _
    have huv : (v ^ ((1 : ℝ) / 2.4)) ^ (2.4 : ℝ) = v := rpow_roundtrip h0
    unfold gammaUncorrect
    by_cases hw : 1.055 * v ^ ((1 : ℝ) / 2.4) - 0.055 ≤ 0.04045
    · rw [if_pos hw]
      have hq24 : (0.09047384 : ℝ) ^ (2.4 : ℝ) ≤ 0.0031308 :=
        (rpow_24_le_iff (by norm_num) (by norm_num)).mpr (by norm_num)
      have hqu : (0.09047384 : ℝ) < v ^ ((1 : ℝ) / 2.4) := by
        by_contra hle
        push_neg at hle
        have h2 := Real.rpow_le_rpow hu0 hle (by norm_num : (0 : ℝ) ≤ 2.4)
        rw [huv] at h2
        have h3 := h2.trans hq24
        linarith
      have hcu : v ^ ((1 : ℝ) / 2.4) ≤ 0.09545 / 1.055 := by linarith
      have hp24 : ((0.09545 : ℝ) / 1.055) ^ (2.4 : ℝ) ≤ 0.0031308073 :=
        (rpow_24_le_iff (by norm_num) (by norm_num)).mpr (by norm_num)
      have hvp : v ≤ 0.0031308073 := by
        have h2 := Real.rpow_le_rpow hu0 hcu (by norm_num : (0 : ℝ) ≤ 2.4)
        rw [huv] at h2
        linarith
      rw [show (1.055 * v ^ ((1 : ℝ) / 2.4) - 0.055) / 12.92 - v =
        (1.055 * v ^ ((1 : ℝ) / 2.4) - 0.055 - 12.92 * v) / 12.92 by ring]
      rw [abs_le]
      constructor
      · rw [le_div_iff₀ (by norm_num : (0 : ℝ) < 12.92)]
        linarith
      · rw [div_le_iff₀ (by norm_num : (0 : ℝ) < 12.92)]
        linarith
    · rw [if_neg hw]
      rw [show (1.055 * v ^ ((1 : ℝ) / 2.4) - 0.055 + 0.055) / 1.055 = v ^ ((1 : ℝ) / 2.4)
        by ring]
      rw [huv]
      norm_num

/-- Claim C4 witness: the amended bound instantiated at v = 1/2. -/
theorem C4_gamma_roundtrip_within_1e8_witness :
    |gammaUncorrect (gammaCorrect (1 / 2 : ℝ)) - 1 / 2| ≤ 1e-8 :=
  C4_gamma_roundtrip_within_1e8 (1 / 2) (by norm_num) (by norm_num)

/-! ### Claim C5 -/

/-- Claim C5: away from the singularity y = 0.1858, getColorTemperature
is exactly McCamy's cubic 449n³+3525n²+6823.3n+5520.33 with
n = (x−0.3320)/(0.1858−y); the definition applies the formula with no
guard, so this is definitional. -/
theorem C5_mccamy_formula (x y : ℚ) (h : y ≠ 0.1858) :
    getColorTemperature x y =
      449 * ((x - 0.3320) / (0.1858 - y)) ^ 3 +
        3525 * ((x - 0.3320) / (0.1858 - y)) ^ 2 +
        6823.3 * ((x - 0.3320) / (0.1858 - y)) + 5520.33 := rfl

/-- Claim C5 witness: the formula instantiated at D65 (0.3127, 0.3290). -/
theorem C5_mccamy_formula_witness :
    getColorTemperature 0.3127 0.3290 =
      449 * ((0.3127 - 0.3320) / (0.1858 - 0.3290)) ^ 3 +
        3525 * ((0.3127 - 0.3320) / (0.1858 - 0.3290)) ^ 2 +
        6823.3 * ((0.3127 - 0.3320) / (0.1858 - 0.3290)) + 5520.33 :=
  C5_mccamy_formula 0.3127 0.3290 (by norm_num)

/-! ### Claim C6 -/

/-- Claim C6: generateCSSColor clamps each channel to [0,255] and rounds
half-up, then formats: `rgb(r, g, b)` for sRGB and any space other than
P3/Rec2020, and `color(display-p3 r/255 g/255 b/255)` with 4 decimal
places for P3; in particular (255,100,100) formats as
"rgb(255, 100, 100)" in sRGB and
"color(display-p3 1.0000 0.3922 0.3922)" in P3. -/
theorem C6_generateCSSColor_spec (rgb : RGBColor) (sp : ColorSpace)
    (hp : sp ≠ ColorSpace.P3) (hrec : sp ≠ ColorSpace.Rec2020) :
    generateCSSColor rgb sp =
      "rgb(" ++ toString (jsRound (clamp255 rgb.r)) ++ ", " ++
        toString (jsRound (clamp255 rgb.g)) ++ ", " ++
        toString (jsRound (clamp255 rgb.b)) ++ ")" ∧
    generateCSSColor rgb ColorSpace.P3 =
      "color(display-p3 " ++ toFixed4 ((jsRound (clamp255 rgb.r) : ℚ) / 255) ++ " " ++
        toFixed4 ((jsRound (clamp255 rgb.g) : ℚ) / 255) ++ " " ++
        toFixed4 ((jsRound (clamp255 rgb.b) : ℚ) / 255) ++ ")" ∧
    generateCSSColor ⟨255, 100, 100⟩ ColorSpace.sRGB = "rgb(255, 100, 100)" ∧
    generateCSSColor ⟨255, 100, 100⟩ ColorSpace.P3 =
      "color(display-p3 1.0000 0.3922 0.3922)" := by
  refine ⟨?_, rfl, ?_, ?_⟩
  · cases sp with
    | P3 => exact absurd rfl hp
    | Rec2020 => exact absurd rfl hrec
    | sRGB => rfl
    | XYZ => rfl
    | LAB => rfl
    | OKLCH => rfl
  · have h255 : jsRound (clamp255 (⟨255, 100, 100⟩ : RGBColor).r) = 255 := by
      norm_num [jsRound, clamp255, min_def, max_def]
    have h100 : jsRound (clamp255 (⟨255, 100, 100⟩ : RGBColor).g) = 100 := by
      norm_num [jsRound, clamp255, min_def, max_def]
    unfold generateCSSColor
    rw [h255, h100]
    decide
  · have h255 : jsRound (clamp255 (⟨255, 100, 100⟩ : RGBColor).r) = 255 := by
      norm_num [jsRound, clamp255, min_def, max_def]
    have h100 : jsRound (clamp255 (⟨255, 100, 100⟩ : RGBColor).g) = 100 := by
      norm_num [jsRound, clamp255, min_def, max_def]
    have hf1 : toFixed4 (((255 : ℤ) : ℚ) / 255) = "1.0000" := by
      rw [toFixed4]
      norm_num
      decide
    have hf2 : toFixed4 (((100 : ℤ) : ℚ) / 255) = "0.3922" := by
      rw [toFixed4]
      norm_num
      decide
    unfold generateCSSColor
    rw [h255, h100]
    show "color(display-p3 " ++ toFixed4 (((255 : ℤ) : ℚ) / 255) ++ " " ++
        toFixed4 (((100 : ℤ) : ℚ) / 255) ++ " " ++ toFixed4 (((100 : ℤ) : ℚ) / 255) ++ ")" = _
    rw [hf1, hf2]
    decide

/-- Claim C6 witness: the default branch instantiated at the
unrecognized space tag XYZ with an out-of-range input (300,−5,100),
which clamps and rounds to (255,0,100). -/
theorem C6_generateCSSColor_spec_witness :
    generateCSSColor ⟨300, -5, 100⟩ ColorSpace.XYZ = "rgb(255, 0, 100)" := by
  have h := (C6_generateCSSColor_spec ⟨300, -5, 100⟩ ColorSpace.XYZ
    (by decide) (by decide)).1
  rw [h]
  rw [show jsRound (clamp255 (⟨300, -5, 100⟩ : RGBColor).r) = 255 from by
    norm_num [jsRound, clamp255, min_def, max_def]]
  rw [show jsRound (clamp255 (⟨300, -5, 100⟩ : RGBColor).g) = 0 from by
    norm_num [jsRound, clamp255, min_def, max_def]]
  rw [show jsRound (clamp255 (⟨300, -5, 100⟩ : RGBColor).b) = 100 from by
    norm_num [jsRound, clamp255, min_def, max_def]]
  decide

/-! ### Claim C7 -/

/-- Claim C7: isInGamut is true exactly when all three channels lie in
[0,255] (it takes no color-space argument at all); in particular it
rejects (300,0,0) and accepts (0,0,0). -/
theorem C7_isInGamut_spec :
    (∀ rgb : RGBColor, isInGamut rgb = true ↔
      (0 ≤ rgb.r ∧ rgb.r ≤ 255 ∧ 0 ≤ rgb.g ∧ rgb.g ≤ 255 ∧ 0 ≤ rgb.b ∧ rgb.b ≤ 255)) ∧
    isInGamut ⟨300, 0, 0⟩ = false ∧ isInGamut ⟨0, 0, 0⟩ = true := by
  refine ⟨fun rgb => ?_, ?_, ?_⟩
  · unfold isInGamut
    simp [and_assoc, ge_iff_le]
  · unfold isInGamut
    norm_num
  · unfold isInGamut
    norm_num

/-! ### Claim C8 -/

/-- Claim C8: XYZToLAB at the normalized D65 white point
(0.95047, 1, 1.08883) yields l ≈ 100, a ≈ 0, b ≈ 0 (exactly (100,0,0)
in exact arithmetic: each normalized channel is 1 and labF 1 = 1). -/
theorem C8_lab_white_point :
    |(XYZToLAB ⟨0.95047, 1, 1.08883⟩).l - 100| ≤ 1e-9 ∧
    |(XYZToLAB ⟨0.95047, 1, 1.08883⟩).a| ≤ 1e-9 ∧
    |(XYZToLAB ⟨0.95047, 1, 1.08883⟩).b| ≤ 1e-9 := by
  have hf : labF 1 = 1 := by
    unfold labF
    rw [if_pos (by norm_num)]
    exact Real.one_rpow _
  have hlab : XYZToLAB ⟨0.95047, 1, 1.08883⟩ = ⟨100, 0, 0⟩ := by
    unfold XYZToLAB
    rw [show (((⟨0.95047, 1, 1.08883⟩ : XYZColor).x : ℝ)) / 0.95047 = 1 by norm_num]
    rw [show (((⟨0.95047, 1, 1.08883⟩ : XYZColor).y : ℝ)) / 1.00000 = 1 by norm_num]
    rw [show (((⟨0.95047, 1, 1.08883⟩ : XYZColor).z : ℝ)) / 1.08883 = 1 by norm_num]
    rw [hf]
    show (⟨116 * 1 - 16, 500 * (1 - 1), 200 * (1 - 1)⟩ : LABColor) = ⟨100, 0, 0⟩
    norm_num
  rw [hlab]
  norm_num

/-! ### Claim C9 -/

/-- Claim C9: for any LAB color with l in [0,100], LABToOKLCH returns
l scaled to [0,1] (exactly l/100), a non-negative chroma, and a hue in
[0,360) degrees. -/
theorem C9_oklch_ranges (lab : LABColor) (h0 : 0 ≤ lab.l) (h1 : lab.l ≤ 100) :
    (LABToOKLCH lab).l = lab.l / 100 ∧
    0 ≤ (LABToOKLCH lab).l ∧ (LABToOKLCH lab).l ≤ 1 ∧
    0 ≤ (LABToOKLCH lab).c ∧
    0 ≤ (LABToOKLCH lab).h ∧ (LABToOKLCH lab).h < 360 := by
  have hpi : 0 < Real.pi := Real.pi_pos
  obtain ⟨hr1, hr2⟩ := atan2_range lab.b lab.a
  have hdeg1 : -180 < atan2 lab.b lab.a * 180 / Real.pi := by
    rw [lt_div_iff₀ hpi]
    nlinarith
  have hdeg2 : atan2 lab.b lab.a * 180 / Real.pi ≤ 180 := by
    rw [div_le_iff₀ hpi]
    nlinarith
  unfold LABToOKLCH
  refine ⟨rfl, by positivity, by simp only; linarith, ?_, ?_, ?_⟩
  · simp only
    positivity
  · simp only
    by_cases hneg : atan2 lab.b lab.a * 180 / Real.pi < 0
    · rw [if_pos hneg]
      linarith
    · rw [if_neg hneg]
      push_neg at hneg
      linarith
  · simp only
    by_cases hneg : atan2 lab.b lab.a * 180 / Real.pi < 0
    · rw [if_pos hneg]
      linarith
    · rw [if_neg hneg]
      linarith

/-- Claim C9 witness: the ranges instantiated at the LAB color (50,3,4). -/
theorem C9_oklch_ranges_witness :
    (LABToOKLCH ⟨50, 3, 4⟩).l = 50 / 100 ∧
    0 ≤ (LABToOKLCH ⟨50, 3, 4⟩).l ∧ (LABToOKLCH ⟨50, 3, 4⟩).l ≤ 1 ∧
    0 ≤ (LABToOKLCH ⟨50, 3, 4⟩).c ∧
    0 ≤ (LABToOKLCH ⟨50, 3, 4⟩).h ∧ (LABToOKLCH ⟨50, 3, 4⟩).h < 360 :=
  C9_oklch_ranges ⟨50, 3, 4⟩ (by norm_num) (by norm_num)

/-! ### Claim C10 -/

/-- Claim C10: for XYZ inputs with non-negative components and positive
sum, the chromaticity coordinates returned by XYZToxyY lie in [0,1]
with x+y ≤ 1, and the luminance field is the input y unchanged. -/
theorem C10_chromaticity_invariants (xyz : XYZColor)
    (hx : 0 ≤ xyz.x) (hy : 0 ≤ xyz.y) (hz : 0 ≤ xyz.z)
    (hs : 0 < xyz.x + xyz.y + xyz.z) :
    0 ≤ (XYZToxyY xyz).x ∧ (XYZToxyY xyz).x ≤ 1 ∧
    0 ≤ (XYZToxyY xyz).y ∧ (XYZToxyY xyz).y ≤ 1 ∧
    (XYZToxyY xyz).x + (XYZToxyY xyz).y ≤ 1 ∧ (XYZToxyY xyz).Y = xyz.y := by
  obtain ⟨x, y, z⟩ := xyz
  simp only at hx hy hz hs
  unfold XYZToxyY
  rw [if_neg (ne_of_gt hs)]
  refine ⟨div_nonneg hx hs.le, (div_le_one hs).mpr (by linarith),
    div_nonneg hy hs.le, (div_le_one hs).mpr (by linarith), ?_, rfl⟩
  rw [div_add_div_same]
  exact (div_le_one hs).mpr (by linarith)

/-- Claim C10 witness: the invariants instantiated at (1,2,3). -/
theorem C10_chromaticity_invariants_witness :
    0 ≤ (XYZToxyY ⟨1, 2, 3⟩).x ∧ (XYZToxyY ⟨1, 2, 3⟩).x ≤ 1 ∧
    0 ≤ (XYZToxyY ⟨1, 2, 3⟩).y ∧ (XYZToxyY ⟨1, 2, 3⟩).y ≤ 1 ∧
    (XYZToxyY ⟨1, 2, 3⟩).x + (XYZToxyY ⟨1, 2, 3⟩).y ≤ 1 ∧
    (XYZToxyY ⟨1, 2, 3⟩).Y = 2 :=
  C10_chromaticity_invariants ⟨1, 2, 3⟩ (by norm_num) (by norm_num) (by norm_num) (by norm_num)
